import Mathlib

/-!
# Verification of the DataProcessor pipeline

A shallow embedding of the core pipeline of this repository
(`src/dataproc1.py`: the `DataProcessor` class and its instrumentation
decorators; `src/processor.py`: the CLI entry point), together with proofs
settling the specification claims about it.

Modelling conventions:
* pandas `DataFrame`s become `Table`: a column-name list plus a list of rows,
  each row a list of cell `Value`s positionally aligned with the columns.
* Python numbers (`int`/`float`) are modelled exactly by `Rat`; `NaN`/missing
  is the distinguished cell `Value.na`.  Binary-float rounding is not modelled
  (no claim depends on it).
* Raised Python exceptions become `Except PyExc`; everything `print`ed during
  a call is collected in a `List String` (timer wall-clock figures are elided
  from the timing line, as real time is not modelled).
* In-place mutation of `self.data` becomes explicit state passing of
  `PipelineState`.
-/

namespace DataProc

/-- A scalar cell value.  Mirrors what a pandas cell holds in this program:
a number (`int`/`float`, modelled exactly by `Rat`), a string, a missing
value (`NaN`/`None`), or a non-JSON-native Python object (e.g. a pandas
`Timestamp`) carrying its `str()` representation. -/
inductive Value where
  | num (q : Rat)
  | str (s : String)
  | na
  | pyobj (s : String)
deriving DecidableEq, Repr

/-- A row: one cell per column, positionally aligned with `Table.cols`. -/
abbrev Row := List Value

/-- An in-memory table: pandas `DataFrame` with named columns and rows. -/
structure Table where
  cols : List String
  rows : List Row
deriving DecidableEq, Repr

/-- `DataFrame.shape`: the `(row count, column count)` tuple. -/
def Table.shape (t : Table) : Nat × Nat := (t.rows.length, t.cols.length)

/-- Whether a row contains a missing value in any column (`isnull().any()`). -/
def rowHasNA (r : Row) : Bool := r.any fun v => match v with
  | .na => true
  | _ => false

/-- First-occurrence deduplication with an accumulator of already-seen
elements.  `dedupFirst [] l` keeps the first occurrence of every distinct
element of `l`, in order — the semantics of pandas
`drop_duplicates(keep='first')` on rows, where two rows are duplicates when
all their cells are equal (pandas treats `NaN` cells as equal for duplicate
detection, as does `Value.na` here).  Also used for distinct group keys. -/
def dedupFirst {α : Type} [DecidableEq α] (seen : List α) : List α → List α
  | [] => []
  | r :: rs => if r ∈ seen then dedupFirst seen rs else r :: dedupFirst (r :: seen) rs

/-- `DataFrame.drop_duplicates(inplace=True)`: remove exact duplicate rows,
keeping the first occurrence of each. -/
def Table.drop_duplicates (t : Table) : Table := { t with rows := dedupFirst [] t.rows }

/-- `DataFrame.dropna(inplace=True)`: remove every row containing a missing
value. -/
def Table.dropna (t : Table) : Table := { t with rows := t.rows.filter fun r => !rowHasNA r }

/-- The Table transformation performed by `DataProcessor.clean`
(src/dataproc1.py lines 148–149): drop duplicates, then drop rows with
missing values, in that order. -/
def cleanTable (t : Table) : Table := t.drop_duplicates.dropna

theorem dedupFirst_sublist {α : Type} [DecidableEq α] (l : List α) :
    ∀ seen, (dedupFirst seen l).Sublist l := by
  induction l with
  | nil => intro seen; simp [dedupFirst]
  | cons r rs ih =>
    intro seen
    simp only [dedupFirst]
    by_cases h : r ∈ seen
    · simp only [h, if_true]
      exact (ih seen).trans (List.sublist_cons_self r rs)
    · simp only [h, if_false]
      exact (ih (r :: seen)).cons₂ r

theorem dedupFirst_not_mem_seen {α : Type} [DecidableEq α] (l : List α) :
    ∀ seen r, r ∈ dedupFirst seen l → r ∉ seen := by
  induction l with
  | nil => intro seen r h; simp [dedupFirst] at h
  | cons a rs ih =>
    intro seen r h
    simp only [dedupFirst] at h
    by_cases ha : a ∈ seen
    · rw [if_pos ha] at h
      exact ih seen r h
    · rw [if_neg ha] at h
      rcases List.mem_cons.mp h with rfl | h2
      · exact ha
      · intro hr
        exact ih (a :: seen) r h2 (List.mem_cons_of_mem a hr)

theorem dedupFirst_pairwise {α : Type} [DecidableEq α] (l : List α) :
    ∀ seen, (dedupFirst seen l).Pairwise (· ≠ ·) := by
  induction l with
  | nil => intro seen; simp [dedupFirst]
  | cons a rs ih =>
    intro seen
    simp only [dedupFirst]
    by_cases ha : a ∈ seen
    · rw [if_pos ha]; exact ih seen
    · rw [if_neg ha]
      refine List.pairwise_cons.mpr ⟨?_, ih (a :: seen)⟩
      intro r hr
      have := dedupFirst_not_mem_seen rs (a :: seen) r hr
      intro hEq
      exact this (hEq ▸ List.mem_cons_self a seen)

theorem dedupFirst_eq_self {α : Type} [DecidableEq α] (l : List α) :
    ∀ seen, l.Pairwise (· ≠ ·) → (∀ r ∈ l, r ∉ seen) → dedupFirst seen l = l := by
  induction l with
  | nil => intro seen _ _; simp [dedupFirst]
  | cons a rs ih =>
    intro seen hp hn
    have ha : a ∉ seen := hn a (List.mem_cons_self a rs)
    simp only [dedupFirst, if_neg ha]
    congr 1
    rcases List.pairwise_cons.mp hp with ⟨hane, hp2⟩
    refine ih (a :: seen) hp2 ?_
    intro r hr
    intro hmem
    rcases List.mem_cons.mp hmem with rfl | h2
    · exact hane r hr rfl
    · exact hn r (List.mem_cons_of_mem a hr) h2

theorem cleanTable_cols (t : Table) : (cleanTable t).cols = t.cols := rfl

theorem cleanTable_rows_sublist (t : Table) : (cleanTable t).rows.Sublist t.rows :=
  (List.filter_sublist _).trans (dedupFirst_sublist t.rows [])

theorem cleanTable_pairwise (t : Table) : (cleanTable t).rows.Pairwise (· ≠ ·) :=
  (dedupFirst_pairwise t.rows []).sublist (List.filter_sublist _)

theorem cleanTable_no_na (t : Table) :
    ∀ r ∈ (cleanTable t).rows, rowHasNA r = false := by
  intro r hr
  have := List.of_mem_filter hr
  simpa using this

theorem cleanTable_length_le (t : Table) :
    (cleanTable t).rows.length ≤ t.rows.length :=
  (cleanTable_rows_sublist t).length_le

theorem cleanTable_idem (t : Table) : cleanTable (cleanTable t) = cleanTable t := by
  have hpw : (cleanTable t).rows.Pairwise (· ≠ ·) := cleanTable_pairwise t
  have hna : ∀ r ∈ (cleanTable t).rows, rowHasNA r = false := cleanTable_no_na t
  show ((cleanTable t).drop_duplicates).dropna = cleanTable t
  have hdd : (cleanTable t).drop_duplicates = cleanTable t := by
    show ({ cleanTable t with rows := dedupFirst [] (cleanTable t).rows } : Table) = cleanTable t
    have : dedupFirst [] (cleanTable t).rows = (cleanTable t).rows :=
      dedupFirst_eq_self _ [] hpw (by intro r _; simp)
    simp [this]
  rw [hdd]
  show ({ cleanTable t with rows := (cleanTable t).rows.filter fun r => !rowHasNA r } : Table) = cleanTable t
  have : (cleanTable t).rows.filter (fun r => !rowHasNA r) = (cleanTable t).rows := by
    apply List.filter_eq_self.mpr
    intro r hr
    simp [hna r hr]
  simp [this]

/-- Python `str.endswith`, on the character sequence. -/
def pyEndsWith (s suffix : String) : Bool := suffix.toList.isSuffixOf s.toList

/-- Whether an `Except` outcome is a normal return (no raised exception). -/
def exceptIsOk {ε α : Type} : Except ε α → Bool
  | .ok _ => true
  | .error _ => false

/-! ## Exceptions, pipeline state, and the instrumentation decorators -/

/-- A raised Python exception, carrying its message (`str(e)`).
`fileLoadError` and `dataCleaningError` are the custom exception classes of
src/dataproc1.py lines 63–73; the others are Python builtins raised by the
code being modelled. -/
inductive PyExc where
  | typeError (msg : String)
  | attributeError (msg : String)
  | valueError (msg : String)
  | keyError (msg : String)
  | fileLoadError (msg : String)
  | dataCleaningError (msg : String)
deriving DecidableEq, Repr

/-- `str(e)` for an exception: the message it carries. -/
def PyExc.msg : PyExc → String
  | .typeError m => m
  | .attributeError m => m
  | .valueError m => m
  | .keyError m => m
  | .fileLoadError m => m
  | .dataCleaningError m => m

/-- The mutable state of a `DataProcessor` instance (src/dataproc1.py
lines 97–108): the source path, the current Table (`self.data`), and the
shape recorded at load time (`self.original_shape`). -/
structure PipelineState where
  filepath : String
  data : Table
  original_shape : Nat × Nat
deriving DecidableEq, Repr

/-- What one call of a pipeline method produces: a result or a raised
exception, the post-call state (in-place mutations done before a raise are
kept, as in Python), and the lines printed during the call. -/
abbrev OpOutcome (α : Type) := Except PyExc α × PipelineState × List String

/-- A (possibly decorated) method of `DataProcessor`, as a value: its
`__name__` plus its behaviour on a pipeline state.  The decorators below all
use `functools.wraps`, so `name` is preserved through wrapping. -/
structure POp (α : Type) where
  name : String
  run : PipelineState → OpOutcome α

/-- The `timer` decorator (src/dataproc1.py lines 11–28): runs the wrapped
function and, on normal return, prints the timing line (the wall-clock figure
is elided — real time is not modelled); if the wrapped function raises, the
exception propagates before the print.  `@wraps` keeps the name. -/
def timer {α : Type} (f : POp α) : POp α where
  name := f.name
  run st :=
    match f.run st with
    | (.ok a, st2, out) => (.ok a, st2, out ++ ["⏱️  " ++ f.name ++ " took"])
    | (.error e, st2, out) => (.error e, st2, out)

/-- The `log_operation` decorator (src/dataproc1.py lines 30–42): prints a
start line, runs the wrapped function, prints a completion line on normal
return; a raised exception propagates before the completion line. -/
def log_operation {α : Type} (f : POp α) : POp α where
  name := f.name
  run st :=
    match f.run st with
    | (.ok a, st2, out) =>
        (.ok a, st2, ("📝 Starting: " ++ f.name) :: out ++ ["✅ Completed: " ++ f.name])
    | (.error e, st2, out) => (.error e, st2, ("📝 Starting: " ++ f.name) :: out)

/-- The `handle_errors` decorator (src/dataproc1.py lines 44–57): runs the
wrapped function; a raised exception is caught, an error line naming the
wrapped function is printed, and `None` is returned instead. -/
def handle_errors {α : Type} (f : POp α) : POp (Option α) where
  name := f.name
  run st :=
    match f.run st with
    | (.ok a, st2, out) => (.ok (some a), st2, out)
    | (.error e, st2, out) =>
        (.ok none, st2, out ++ ["❌ Error in " ++ f.name ++ ": " ++ e.msg])

/-! ## `DataProcessor.clean` -/

/-- Python `-` applied to two tuples.  Tuples do not support subtraction, so
this always raises `TypeError` — which is what
`rows_removed = before - after` at src/dataproc1.py line 152 does, `before`
and `after` being the `(rows, cols)` shape tuples from lines 147 and 150. -/
def tupleSub (_a _b : Nat × Nat) : Except PyExc (Nat × Nat) :=
  .error (.typeError "unsupported operand type(s) for -: tuple and tuple")

/-- Body of `DataProcessor.clean` (src/dataproc1.py lines 134–154), before
decoration: record the shape, drop duplicates then missing-value rows in
place, record the new shape, then compute `before - after` — a tuple
subtraction, which raises `TypeError` after the mutation but before any
report line is printed.  The `.ok` branch mirrors lines 153–154 and is
unreachable. -/
def clean_core : PipelineState → OpOutcome Unit := fun st =>
  let before := st.data.shape
  let cleaned := cleanTable st.data
  let after := cleaned.shape
  match tupleSub before after with
  | .error e => (.error e, { st with data := cleaned }, [])
  | .ok rr =>
      (.ok (), { st with data := cleaned },
        ["🧹 Cleaned: Removed " ++ toString rr.1 ++ " rows",
         "   Before: " ++ toString before.1 ++ " → After: " ++ toString after.1])

/-- `DataProcessor.clean` as decorated in the source: `@timer` over
`@log_operation` (src/dataproc1.py lines 132–133) — no error containment. -/
def clean : POp Unit := timer (log_operation ⟨"clean", clean_core⟩)

/-! ## Value comparison (pandas elementwise `Series <op> scalar`) -/

/-- The six comparison operators accepted by `filter_data`
(src/dataproc1.py lines 211–222). -/
inductive CmpOp where
  | gt | lt | eq | ne | ge | le
deriving DecidableEq, Repr

/-- The operator-symbol dispatch of `filter_data`'s `if`/`elif` chain:
`>`, `<`, `==`, `!=`, `>=`, `<=`; anything else falls through to the
invalid-operator branch. -/
def opOfString : String → Option CmpOp
  | ">" => some .gt
  | "<" => some .lt
  | "==" => some .eq
  | "!=" => some .ne
  | ">=" => some .ge
  | "<=" => some .le
  | _ => none

/-- A comparison operator applied to two rationals. -/
def cmpOpRat (op : CmpOp) (a b : Rat) : Bool :=
  match op with
  | .gt => decide (b < a)
  | .lt => decide (a < b)
  | .eq => decide (a = b)
  | .ne => decide (a ≠ b)
  | .ge => !decide (a < b)
  | .le => !decide (b < a)

/-- A comparison operator applied to two strings: Python's lexicographic
string order. -/
def cmpOpStr (op : CmpOp) (a b : String) : Bool :=
  match op with
  | .gt => decide (b < a)
  | .lt => decide (a < b)
  | .eq => decide (a = b)
  | .ne => decide (a ≠ b)
  | .ge => !decide (a < b)
  | .le => !decide (b < a)

/-- Elementwise comparison of one cell against the scalar comparison value,
with pandas semantics:
* number vs number and string vs string compare normally;
* `NaN` vs number: every ordering comparison and `==` are `False`, `!=` is
  `True` (IEEE `NaN` semantics);
* mismatched kinds (number vs string, `NaN` vs string, a non-native object
  vs anything else): `==` is `False` and `!=` is `True`, while an ordering
  comparison raises `TypeError` (pandas refuses to order-compare mixed
  types);
* two non-native objects of the same kind compare by their `str()`
  representation (such objects are identified by it in this model; no claim
  depends on their ordering). -/
def pyCmp (op : CmpOp) (a v : Value) : Except PyExc Bool :=
  match a, v with
  | .num x, .num y => .ok (cmpOpRat op x y)
  | .str x, .str y => .ok (cmpOpStr op x y)
  | .pyobj x, .pyobj y => .ok (cmpOpStr op x y)
  | .na, .num _ => .ok (match op with | .ne => true | _ => false)
  | .num _, .na => .ok (match op with | .ne => true | _ => false)
  | .na, .na => .ok (match op with | .ne => true | _ => false)
  | _, _ =>
      match op with
      | .eq => .ok false
      | .ne => .ok true
      | _ => .error (.typeError "unsupported comparison between mixed types")

/-! ## `DataProcessor.filter_data` -/

/-- Index of a column name in the column list (the position a pandas column
label selects). -/
def Table.colIdx (t : Table) (column : String) : Nat :=
  (t.cols.findIdx? fun c => c == column).getD 0

/-- The cell of a row at a column index. -/
def cellAt (r : Row) (i : Nat) : Value := r.getD i Value.na

/-- The boolean-mask filter `self.data[self.data[column] <op> value]`:
keeps, in order, the rows whose cell compares `true`; a `TypeError` raised
while computing the mask for any row aborts the whole filter (pandas
evaluates the vectorized comparison before any row is selected). -/
def filterRowsE (idx : Nat) (op : CmpOp) (v : Value) : List Row → Except PyExc (List Row)
  | [] => .ok []
  | r :: rs =>
      match pyCmp op (cellAt r idx) v with
      | .error e => .error e
      | .ok b =>
          match filterRowsE idx op v rs with
          | .error e => .error e
          | .ok rest => .ok (if b then r :: rest else rest)

/-- Body of `DataProcessor.filter_data` (src/dataproc1.py lines 187–228),
before decoration: a missing column or an unrecognized operator prints an
error and returns with the Table untouched; otherwise the current Table is
replaced by the filtered rows.  A `TypeError` raised by the comparison
propagates before the assignment to `self.data`, leaving the Table
untouched. -/
def filter_core (column op : String) (value : Value) :
    PipelineState → OpOutcome Unit := fun st =>
  if column ∈ st.data.cols then
    match opOfString op with
    | none => (.ok (), st, ["❌ Invalid operator: " ++ op])
    | some cop =>
        match filterRowsE (st.data.colIdx column) cop value st.data.rows with
        | .error e => (.error e, st, [])
        | .ok kept =>
            (.ok (), { st with data := { st.data with rows := kept } },
              ["🔍 Filter applied: " ++ toString st.data.rows.length ++ " → " ++
                toString kept.length ++ " rows (kept " ++ toString kept.length ++ " rows)"])
  else (.ok (), st, ["❌ Column " ++ column ++ " not found"])

/-- `DataProcessor.filter_data` as decorated in the source: `@timer` only
(src/dataproc1.py line 186) — no error containment. -/
def filter_data (column op : String) (value : Value) : POp Unit :=
  timer ⟨"filter_data", filter_core column op value⟩

/-! ## `DataProcessor.group_by` -/

/-- Whether a cell belongs to a numeric (`np.number`) column: numbers and
`NaN` are numeric dtype material, strings and other objects force `object`
dtype. -/
def Value.isNumericCell : Value → Bool
  | .num _ => true
  | .na => true
  | _ => false

/-- Indices of the columns `select_dtypes(include=[np.number])` selects:
those whose every cell is a number or `NaN`. -/
def Table.numericColIdxs (t : Table) : List Nat :=
  (List.range t.cols.length).filter fun i =>
    t.rows.all fun r => (cellAt r i).isNumericCell

/-- Names of the numeric columns (`...columns.tolist()`,
src/dataproc1.py line 253). -/
def Table.numericCols (t : Table) : List String :=
  t.numericColIdxs.map fun i => t.cols.getD i ""

/-- The numeric content of a cell, if any. -/
def cellRat : Value → Option Rat
  | .num q => some q
  | _ => none

/-- Distinct group keys of a column, with `NaN` keys excluded (pandas
`groupby` drops missing keys by default).  Keys are listed in first-occurrence
order; pandas sorts them (`sort=True` default), but only the key set and the
per-key values matter to the claims proved here, and in the concrete
scenarios first-occurrence order coincides with sorted order. -/
def groupKeys (idx : Nat) (rows : List Row) : List Value :=
  (dedupFirst [] (rows.map fun r => cellAt r idx)).filter fun v =>
    match v with
    | .na => false
    | _ => true

/-- The rows of one group: those whose key cell equals `k`. -/
def groupRowsOf (idx : Nat) (k : Value) (rows : List Row) : List Row :=
  rows.filter fun r => cellAt r idx == k

/-- Exact rational addition through `mkRat`.  (`Rat.add` itself is
`@[irreducible]`, which blocks kernel evaluation of the concrete scenario
Tables; this is the same rational sum, written reducibly.) -/
def ratAdd (a b : Rat) : Rat := mkRat (a.num * b.den + b.num * a.den) (a.den * b.den)

/-- Sum of a list of exact rationals. -/
def rsum (l : List Rat) : Rat := l.foldl ratAdd 0

/-- Exact division of a rational by a positive natural count. -/
def ratDivNat (a : Rat) (n : Nat) : Rat := mkRat a.num (a.den * n)

/-- `mean` with `skipna`: `NaN` cells are ignored; an all-`NaN` group is
`NaN`. -/
def meanAgg (vals : List Rat) : Value :=
  if vals.length = 0 then .na else .num (ratDivNat (rsum vals) vals.length)

/-- `sum` with `skipna`: `NaN` cells are ignored; an all-`NaN` group sums to
`0`. -/
def sumAgg (vals : List Rat) : Value := .num (rsum vals)

/-- `min` with `skipna`; an all-`NaN` group is `NaN`. -/
def minAgg (vals : List Rat) : Value :=
  match vals with
  | [] => .na
  | v :: vs => .num (vs.foldl min v)

/-- `max` with `skipna`; an all-`NaN` group is `NaN`. -/
def maxAgg (vals : List Rat) : Value :=
  match vals with
  | [] => .na
  | v :: vs => .num (vs.foldl max v)

/-- One aggregated output row: the aggregate of each selected numeric column
over the group's rows, `NaN` cells skipped. -/
def aggRow (aggOne : List Rat → Value) (numIdxs : List Nat) (grows : List Row) : List Value :=
  numIdxs.map fun j => aggOne (grows.filterMap fun r => cellRat (cellAt r j))

/-- `self.data.groupby(column)[numeric_cols].<agg>()`: for each group key, the
aggregated numeric row. -/
def groupFrame (aggOne : List Rat → Value) (t : Table) (idx : Nat) :
    List (Value × List Value) :=
  (groupKeys idx t.rows).map fun k =>
    (k, aggRow aggOne t.numericColIdxs (groupRowsOf idx k t.rows))

/-- `self.data.groupby(column).size()`: the row count of each group. -/
def groupSizes (t : Table) (idx : Nat) : List (Value × Nat) :=
  (groupKeys idx t.rows).map fun k => (k, (groupRowsOf idx k t.rows).length)

/-- What `group_by` returns: a grouped frame of aggregated numeric columns
(for `mean`/`sum`/`min`/`max`) or the per-group row-count series (for
`count`). -/
inductive GroupResult where
  | frame (cols : List String) (groups : List (Value × List Value))
  | series (groups : List (Value × Nat))
deriving DecidableEq, Repr

/-- Body of `DataProcessor.group_by` (src/dataproc1.py lines 231–271), before
decoration: a missing column or an unrecognized aggregation prints an error
and returns `None`; otherwise the grouped result is printed (the rendering of
the frame itself is elided from the output model) and returned.  `self.data`
is never assigned. -/
def group_core (column agg : String) :
    PipelineState → OpOutcome (Option GroupResult) := fun st =>
  if column ∈ st.data.cols then
    match agg with
    | "mean" =>
        (.ok (some (.frame st.data.numericCols (groupFrame meanAgg st.data (st.data.colIdx column)))),
          st, ["📈 Grouped by " ++ column ++ " using " ++ agg ++ ":"])
    | "sum" =>
        (.ok (some (.frame st.data.numericCols (groupFrame sumAgg st.data (st.data.colIdx column)))),
          st, ["📈 Grouped by " ++ column ++ " using " ++ agg ++ ":"])
    | "count" =>
        (.ok (some (.series (groupSizes st.data (st.data.colIdx column)))),
          st, ["📈 Grouped by " ++ column ++ " using " ++ agg ++ ":"])
    | "min" =>
        (.ok (some (.frame st.data.numericCols (groupFrame minAgg st.data (st.data.colIdx column)))),
          st, ["📈 Grouped by " ++ column ++ " using " ++ agg ++ ":"])
    | "max" =>
        (.ok (some (.frame st.data.numericCols (groupFrame maxAgg st.data (st.data.colIdx column)))),
          st, ["📈 Grouped by " ++ column ++ " using " ++ agg ++ ":"])
    | _ => (.ok none, st, ["❌ Invalid aggregation: " ++ agg])
  else (.ok none, st, ["❌ Column " ++ column ++ " not found"])

/-- `DataProcessor.group_by` as decorated in the source: `@timer` only
(src/dataproc1.py line 230) — no error containment. -/
def group_by (column agg : String) : POp (Option GroupResult) :=
  timer ⟨"group_by", group_core column agg⟩

/-! ## `DataProcessor.analyze` and the Report -/

/-- The report dictionary built by `analyze` (src/dataproc1.py
lines 173–181).  Python dicts with string keys become association lists in
insertion order. -/
structure Report where
  filename : String
  original_shape : Nat × Nat
  current_shape : Nat × Nat
  columns : List String
  data_types : List (String × String)
  statistics : List (String × List (String × Value))
  missing_values : List (String × Nat)
deriving DecidableEq, Repr

/-- The dtype string of a column: numeric columns report a numeric dtype,
anything else `object`.  (Finer inference — `int64` vs `float64` — belongs to
the tabular-I/O collaborator; no claim depends on it.) -/
def Table.dtypeName (t : Table) (i : Nat) : String :=
  if t.rows.all (fun r => (cellAt r i).isNumericCell) then "float64" else "object"

/-- Occurrences of a value in a list of cells. -/
def countOcc (v : Value) (l : List Value) : Nat := (l.filter fun x => x == v).length

/-- The most frequent value and its frequency (`top`/`freq` of `describe`
for a non-numeric column); ties resolve to the earliest-seen value. -/
def topFreq (l : List Value) : Value × Nat :=
  (dedupFirst [] l).foldl
    (fun acc v => let c := countOcc v l; if acc.2 < c then (v, c) else acc)
    (Value.na, 0)

/-- `describe(include='all')` statistics for one column: count/mean/min/max
for a numeric column (`NaN` skipped), count/unique/top/freq for a non-numeric
one.  `std` and the quantiles are elided: they need real-number arithmetic
and no claim depends on them. -/
def colStats (t : Table) (i : Nat) : List (String × Value) :=
  let cells := t.rows.map fun r => cellAt r i
  if cells.all Value.isNumericCell then
    let vals := cells.filterMap cellRat
    [("count", .num (vals.length : Rat)), ("mean", meanAgg vals),
     ("min", minAgg vals), ("max", maxAgg vals)]
  else
    let nonNA := cells.filter fun v => !(v == Value.na)
    let tf := topFreq nonNA
    [("count", .num (nonNA.length : Rat)),
     ("unique", .num ((dedupFirst [] nonNA).length : Rat)),
     ("top", tf.1), ("freq", .num (tf.2 : Rat))]

/-- `self.data.isnull().sum()` for one column: its missing-cell count. -/
def colMissing (t : Table) (i : Nat) : Nat :=
  (t.rows.filter fun r => cellAt r i == Value.na).length

/-- The report `analyze` assembles from the current state
(src/dataproc1.py lines 171–181). -/
def mkReport (st : PipelineState) : Report where
  filename := st.filepath
  original_shape := st.original_shape
  current_shape := st.data.shape
  columns := st.data.cols
  data_types := (List.range st.data.cols.length).map fun i =>
    (st.data.cols.getD i "", st.data.dtypeName i)
  statistics := (List.range st.data.cols.length).map fun i =>
    (st.data.cols.getD i "", colStats st.data i)
  missing_values := (List.range st.data.cols.length).map fun i =>
    (st.data.cols.getD i "", colMissing st.data i)

/-- Body of `DataProcessor.analyze` (src/dataproc1.py lines 158–184), before
decoration: builds the report from the current Table without assigning any
attribute, prints a completion line, and returns the report. -/
def analyze_core : PipelineState → OpOutcome Report := fun st =>
  (.ok (mkReport st), st,
    ["📊 Analysis complete: " ++ toString st.data.cols.length ++ " columns analyzed"])

/-- `DataProcessor.analyze` as decorated in the source: `@timer` over
`@log_operation` (src/dataproc1.py lines 156–157). -/
def analyze : POp Report := timer (log_operation ⟨"analyze", analyze_core⟩)

/-! ## `DataProcessor.save_report` and the file system -/

/-- A JSON value as Python's `json` module produces it.  `jnan` is the
non-standard `NaN` literal `json.dump` writes for a float `nan` (and
`json.load` reads back). -/
inductive Jval where
  | jnull
  | jnum (q : Rat)
  | jnan
  | jstr (s : String)
  | jarr (elts : List Jval)
  | jobj (fields : List (String × Jval))

/-- `json.dump(..., default=str)` on one cell value: numbers and strings
serialize natively, `NaN` as the `NaN` literal, and a non-JSON-native object
falls back to its string representation via `default=str` — so serialization
never raises. -/
def jsonOfValue : Value → Jval
  | .num q => .jnum q
  | .str s => .jstr s
  | .na => .jnan
  | .pyobj s => .jstr s

/-- A shape tuple serializes as a two-element JSON array. -/
def jsonOfShape (p : Nat × Nat) : Jval := .jarr [.jnum (p.1 : Rat), .jnum (p.2 : Rat)]

/-- `json.dump(report, ..., default=str)`: the report dictionary as a JSON
object, keys in insertion order. -/
def jsonOfReport (r : Report) : Jval :=
  .jobj
    [("filename", .jstr r.filename),
     ("original_shape", jsonOfShape r.original_shape),
     ("current_shape", jsonOfShape r.current_shape),
     ("columns", .jarr (r.columns.map .jstr)),
     ("data_types", .jobj (r.data_types.map fun p => (p.1, .jstr p.2))),
     ("statistics", .jobj (r.statistics.map fun p =>
        (p.1, .jobj (p.2.map fun q => (q.1, jsonOfValue q.2))))),
     ("missing_values", .jobj (r.missing_values.map fun p => (p.1, .jnum (p.2 : Rat))))]

/-- Field lookup in a JSON object (what re-reading a saved report and
indexing it does). -/
def Jval.get (j : Jval) (key : String) : Option Jval :=
  match j with
  | .jobj fields => (fields.find? fun p => p.1 == key).map fun p => p.2
  | _ => none

/-- What a written report file holds: the JSON document, or the CSV export of
the statistics frame (`pd.DataFrame(report['statistics']).to_csv`, modelled
as the statistics it renders — no claim inspects the CSV text). -/
inductive FileContent where
  | json (j : Jval)
  | csv (stats : List (String × List (String × Value)))

/-- The file system: written files, most recent write first. -/
abbrev FS := List (String × FileContent)

/-- Reading back a written file. -/
def fsRead (fs : FS) (path : String) : Option FileContent := List.lookup path fs

/-- `DataProcessor.save_report` (src/dataproc1.py lines 311–335), undecorated
in the source: `.json` writes the JSON document (with `default=str`, so it
never raises), `.csv` writes the statistics frame, any other extension prints
the unsupported-format message and writes nothing.  The method never touches
`self.data` or `self.original_shape`, so the state passes through
unchanged. -/
def save_report (report : Report) (output_file : String) (st : PipelineState)
    (fs : FS) : PipelineState × FS × List String :=
  if pyEndsWith output_file ".json" then
    (st, (output_file, .json (jsonOfReport report)) :: fs,
      ["💾 Report saved to: " ++ output_file])
  else if pyEndsWith output_file ".csv" then
    (st, (output_file, .csv report.statistics) :: fs,
      ["💾 Statistics saved to: " ++ output_file])
  else
    (st, fs, ["❌ Unsupported output format. Use .json or .csv"])

/-! ## Construction: `__init__` and `_load_file` -/

/-- Rendering of a Python shape tuple in a printed f-string. -/
def tupleStr (p : Nat × Nat) : String :=
  "(" ++ toString p.1 ++ ", " ++ toString p.2 ++ ")"

/-- Body of `DataProcessor._load_file` (src/dataproc1.py lines 112–130),
before decoration: dispatch on the path extension to the matching decoder
(`pd.read_csv` / `pd.read_excel` / `pd.read_json`, passed in as the external
tabular-I/O collaborators, each of which may itself raise on a bad file);
any other extension raises `FileLoadError`. -/
def load_file_body (readCsv readExcel readJson : String → Except PyExc Table)
    (filepath : String) : Except PyExc Table :=
  if pyEndsWith filepath ".csv" then readCsv filepath
  else if pyEndsWith filepath ".xlsx" || pyEndsWith filepath ".xls" then readExcel filepath
  else if pyEndsWith filepath ".json" then readJson filepath
  else .error (.fileLoadError ("Unsupported file type: " ++ filepath))

/-- `_load_file` as decorated in the source: `@handle_errors`
(src/dataproc1.py line 111).  This is the same decorator as `handle_errors`
above, applied to the one method that runs before any state exists: every
raised exception — including the `FileLoadError` for an unknown extension —
is caught, reported under the wrapped name `_load_file`, and turned into
`None`. -/
def load_file_handled (readCsv readExcel readJson : String → Except PyExc Table)
    (filepath : String) : Option Table × List String :=
  match load_file_body readCsv readExcel readJson filepath with
  | .ok t => (some t, [])
  | .error e => (none, ["❌ Error in _load_file: " ++ e.msg])

/-- `DataProcessor.__init__` (src/dataproc1.py lines 97–109): stores the
path, loads the file through the error-containing `_load_file`, then reads
`self.data.shape`.  When `_load_file` was forced to `None`, that attribute
access raises `AttributeError`, so construction fails — but with
`AttributeError`, not with the already-swallowed `FileLoadError`. -/
def DataProcessor_init (readCsv readExcel readJson : String → Except PyExc Table)
    (filepath : String) : Except PyExc PipelineState × List String :=
  match load_file_handled readCsv readExcel readJson filepath with
  | (some t, out) =>
      (.ok ⟨filepath, t, t.shape⟩,
        out ++ ["📂 Loaded " ++ filepath ++ ": " ++ tupleStr t.shape ++ " rows, " ++
          tupleStr t.shape ++ " columns"])
  | (none, out) =>
      (.error (.attributeError "NoneType object has no attribute shape"), out)

/-! ## `DataProcessor.plot_graph` -/

/-- Body of `DataProcessor.plot_graph` (src/dataproc1.py lines 274–309),
before decoration: a missing column prints an error and returns with no side
effect; otherwise rendering is delegated to the charting collaborator
(matplotlib, passed in as `render`), which may raise.  The
matplotlib-missing import guard and the written image artifact are external
I/O and are not modelled. -/
def plot_core (render : String → String → String → PipelineState → Except PyExc Unit)
    (x_col y_col kind : String) : PipelineState → OpOutcome Unit := fun st =>
  if x_col ∈ st.data.cols ∧ y_col ∈ st.data.cols then
    match render x_col y_col kind st with
    | .ok _ => (.ok (), st, ["📊 Plot saved as: plot_" ++ x_col ++ "_" ++ y_col ++ ".png"])
    | .error e => (.error e, st, [])
  else (.ok (), st, ["❌ One or both columns not found"])

/-- `DataProcessor.plot_graph` as decorated in the source: `@handle_errors`
(src/dataproc1.py line 273) — the one post-construction operation with error
containment. -/
def plot_graph (render : String → String → String → PipelineState → Except PyExc Unit)
    (x_col y_col kind : String) : POp (Option Unit) :=
  handle_errors ⟨"plot_graph", plot_core render x_col y_col kind⟩

/-! ## The CLI entry point (`src/processor.py`) -/

/-- The numeric value of a run of ASCII digits. -/
def digitsToNat (ds : List Char) : Nat :=
  ds.foldl (fun n c => n * 10 + (c.toNat - 48)) 0

/-- Result of Python `float(s)` when it succeeds: a finite value or `nan`.
(The infinity literals `float` also accepts are not modelled: the cell model
has no infinities and no claim depends on them.) -/
inductive PyFloat where
  | finite (q : Rat)
  | nan
deriving DecidableEq, Repr

/-- The mantissa `ip.fp` as an exact rational. -/
def mantissaVal (ip fp : List Char) : Rat :=
  mkRat ((digitsToNat ip * 10 ^ fp.length + digitsToNat fp : Nat) : Int) (10 ^ fp.length)

/-- The exponent part after `e`/`E`: an optional sign then at least one
digit, consuming the whole rest of the literal. -/
def applyExp (m : Rat) (cs : List Char) : Option Rat :=
  let (neg, ds) :=
    match cs with
    | '+' :: r => (false, r)
    | '-' :: r => (true, r)
    | r => (false, r)
  if ds.isEmpty || !ds.all Char.isDigit then none
  else
    let e := digitsToNat ds
    some (if neg then mkRat m.num (m.den * 10 ^ e)
          else mkRat (m.num * ((10 ^ e : Nat) : Int)) m.den)

/-- An unsigned Python float literal: digits with an optional decimal point
(at least one digit on one side of it) and an optional exponent. -/
def parseUnsigned (cs : List Char) : Option Rat :=
  let (ip, r1) := cs.span Char.isDigit
  match r1 with
  | '.' :: r2 =>
      let (fp, r3) := r2.span Char.isDigit
      if ip.isEmpty && fp.isEmpty then none
      else
        match r3 with
        | [] => some (mantissaVal ip fp)
        | 'e' :: r4 => applyExp (mantissaVal ip fp) r4
        | 'E' :: r4 => applyExp (mantissaVal ip fp) r4
        | _ => none
  | 'e' :: r4 => if ip.isEmpty then none else applyExp (mantissaVal ip []) r4
  | 'E' :: r4 => if ip.isEmpty then none else applyExp (mantissaVal ip []) r4
  | [] => if ip.isEmpty then none else some (mantissaVal ip [])
  | _ => none

/-- `str.strip()`: surrounding whitespace removed, on the character
sequence. -/
def pyStrip (cs : List Char) : List Char :=
  ((cs.dropWhile Char.isWhitespace).reverse.dropWhile Char.isWhitespace).reverse

/-- A model of Python `float(s)` on a string: strip surrounding whitespace,
an optional sign, then either `nan` (case-insensitive) or a decimal literal,
evaluated exactly over `Rat` (binary-float rounding is not modelled, nor are
CPython extras — digit-group underscores, infinity literals, non-ASCII
digits — none of which any claim depends on).  `none` models the raised
`ValueError`. -/
def pyFloatParse (s : String) : Option PyFloat :=
  let cs := pyStrip s.toList
  let (neg, body) :=
    match cs with
    | '+' :: r => (false, r)
    | '-' :: r => (true, r)
    | r => (false, r)
  if body.map Char.toLower = "nan".toList then some .nan
  else
    match parseUnsigned body with
    | some q => some (.finite (if neg then -q else q))
    | none => none

/-- The value conversion in the `--filter` branch of `main`
(src/processor.py lines 59–66): try `float(val)`; on `ValueError` keep the
raw string.  A successful `float('nan')` is the `NaN` cell. -/
def cliFilterValue (s : String) : Value :=
  match pyFloatParse s with
  | some (.finite q) => .num q
  | some .nan => .na
  | none => .str s

/-- The `--filter` branch of `main`: `dp.filter_data(col, op, val)` with the
converted value. -/
def cliFilter (col op val : String) : POp Unit :=
  filter_data col op (cliFilterValue val)

/-! ## Helper lemmas about the decorators and the filter -/

theorem timer_fst {α : Type} (f : POp α) (st : PipelineState) :
    ((timer f).run st).1 = (f.run st).1 := by
  rcases hf : f.run st with ⟨r, st2, out⟩
  cases r <;> simp [timer, hf]

theorem timer_state {α : Type} (f : POp α) (st : PipelineState) :
    ((timer f).run st).2.1 = (f.run st).2.1 := by
  rcases hf : f.run st with ⟨r, st2, out⟩
  cases r <;> simp [timer, hf]

theorem log_operation_fst {α : Type} (f : POp α) (st : PipelineState) :
    ((log_operation f).run st).1 = (f.run st).1 := by
  rcases hf : f.run st with ⟨r, st2, out⟩
  cases r <;> simp [log_operation, hf]

theorem log_operation_state {α : Type} (f : POp α) (st : PipelineState) :
    ((log_operation f).run st).2.1 = (f.run st).2.1 := by
  rcases hf : f.run st with ⟨r, st2, out⟩
  cases r <;> simp [log_operation, hf]

/-- A successful boolean-mask filter keeps a subsequence of the rows, each of
which satisfied the comparison. -/
theorem filterRowsE_ok (idx : Nat) (op : CmpOp) (v : Value) :
    ∀ rows kept, filterRowsE idx op v rows = .ok kept →
      kept.Sublist rows ∧ ∀ r ∈ kept, pyCmp op (cellAt r idx) v = .ok true := by
  intro rows
  induction rows with
  | nil =>
    intro kept h
    simp only [filterRowsE] at h
    cases h
    exact ⟨List.Sublist.refl _, by intro r hr; simp at hr⟩
  | cons a rs ih =>
    intro kept h
    simp only [filterRowsE] at h
    cases hc : pyCmp op (cellAt a idx) v with
    | error e => rw [hc] at h; cases h
    | ok b =>
      rw [hc] at h
      cases hrest : filterRowsE idx op v rs with
      | error e => rw [hrest] at h; cases h
      | ok rest2 =>
        rw [hrest] at h
        rcases ih rest2 hrest with ⟨hsub, hsat⟩
        cases b with
        | true =>
          cases h
          refine ⟨hsub.cons₂ a, ?_⟩
          intro r hr
          rcases List.mem_cons.mp hr with rfl | h2
          · exact hc
          · exact hsat r h2
        | false =>
          cases h
          exact ⟨hsub.cons a, hsat⟩

/-- Characterization of a successful `filter_data` call on an existing column
with a supported operator: the new state is the old one with the Table rows
replaced by the mask-filtered rows. -/
theorem filter_data_ok (c o : String) (v : Value) (cop : CmpOp)
    (st st1 : PipelineState) (out : List String)
    (hc : c ∈ st.data.cols) (hop : opOfString o = some cop)
    (hrun : (filter_data c o v).run st = (.ok (), st1, out)) :
    ∃ kept, filterRowsE (st.data.colIdx c) cop v st.data.rows = .ok kept ∧
      st1 = { st with data := { st.data with rows := kept } } := by
  unfold filter_data timer at hrun
  simp only [filter_core, if_pos hc, hop] at hrun
  cases hfe : filterRowsE (st.data.colIdx c) cop v st.data.rows with
  | error e => rw [hfe] at hrun; simp at hrun
  | ok kept =>
    rw [hfe] at hrun
    simp only [Prod.mk.injEq] at hrun
    exact ⟨kept, rfl, hrun.2.1.symm⟩

/-! ## Concrete fixtures used by the claims -/

/-- The 5-row Table of the clean scenario: one exact duplicate row and one
row with a missing value. -/
def fiveRowTable : Table :=
  ⟨["A", "B"],
   [[.num 1, .num 1], [.num 1, .num 1], [.num 2, .na], [.num 3, .num 3],
    [.num 4, .num 4]]⟩

/-- A loaded pipeline holding `fiveRowTable`. -/
def st5 : PipelineState := ⟨"data.csv", fiveRowTable, (5, 2)⟩

/-- The Region/Sales Table of the filter and group-by scenarios. -/
def scenTable : Table :=
  ⟨["Region", "Sales"],
   [[.str "A", .num 600], [.str "A", .num 400], [.str "B", .num 900]]⟩

/-- A loaded pipeline holding `scenTable`. -/
def scenSt : PipelineState := ⟨"data.csv", scenTable, (3, 2)⟩

/-- A decoder that always succeeds (returns `scenTable`). -/
def okReader : String → Except PyExc Table := fun _ => .ok scenTable

/-- A decoder that always fails, as `pd.read_csv` does on an undecodable
file. -/
def failReader : String → Except PyExc Table := fun _ => .error (.valueError "bad file")

/-- Whether a construction outcome is an escaping `FileLoadError`. -/
def isFileLoadErrorOutcome : Except PyExc PipelineState → Bool
  | .error (.fileLoadError _) => true
  | _ => false

/-! ## Claims -/

/-- **C1.**  The claim says `clean` reports the before/after shapes and a
removal count of `before_rows − after_rows`, completing without a raised
failure.  The code cannot: `rows_removed = before - after`
(src/dataproc1.py line 152) subtracts two shape *tuples*, which raises
`TypeError` on every call — after the in-place cleaning but before any
report line.  On the 5-row scenario Table the cleaning itself does leave
3 rows, so the count the docstring intends is 2; the raise contradicts the
method's own docstring ("Calculate and print how many rows removed"): a bug
in the code, not in the claim. -/
theorem C1_clean_raises_typeError :
    (∀ st : PipelineState, (clean.run st).1 =
        .error (.typeError "unsupported operand type(s) for -: tuple and tuple"))
    ∧ (clean.run st5).2.1.data.rows.length = 3
    ∧ st5.data.rows.length = 5
    ∧ st5.data.rows.length - (clean.run st5).2.1.data.rows.length = 2 := by
  refine ⟨?_, by decide, by decide, by decide⟩
  intro st
  simp only [clean]
  rw [timer_fst, log_operation_fst]
  rfl

/-- **C2, counterexample.**  Constructing a pipeline on a path with an
unrecognized extension does fail fatally, but not *with* `FileLoadError` as
the claim states: `_load_file` is decorated with `@handle_errors`, which
swallows the raised `FileLoadError` and returns `None`, so `__init__` then
raises `AttributeError` at `self.data.shape` (src/dataproc1.py line 108). -/
theorem C2_counterexample :
    (DataProcessor_init okReader okReader okReader "data.txt").1 =
      .error (.attributeError "NoneType object has no attribute shape")
    ∧ isFileLoadErrorOutcome
        (DataProcessor_init okReader okReader okReader "data.txt").1 = false := by
  exact ⟨rfl, rfl⟩

/-- **C2, amended.**  For every path whose extension is not one of
csv/xlsx/xls/json, and for every path whose underlying decode fails —
whichever of the three decoders (`pd.read_csv`, `pd.read_excel` for both
`.xlsx` and `.xls`, `pd.read_json`) the extension dispatches to —
construction fails fatally: no pipeline state is produced.  But the
escaping exception is `AttributeError` (`None` has no attribute `shape`),
the `@handle_errors` decorator on `_load_file` having already converted the
raised `FileLoadError` (or decoder error) into a `None` result.  The
hypotheses on each path mirror the dispatch order of `_load_file`
(src/dataproc1.py lines 123–128): a `.csv` suffix is checked first, then
`.xlsx`/`.xls`, then `.json`. -/
theorem C2_construction_fatal (rc re rj : String → Except PyExc Table)
    (fp fp2 fp3 fp4 fp5 : String) (e2 e3 e4 e5 : PyExc)
    (h1 : pyEndsWith fp ".csv" = false) (h2 : pyEndsWith fp ".xlsx" = false)
    (h3 : pyEndsWith fp ".xls" = false) (h4 : pyEndsWith fp ".json" = false)
    (h5 : pyEndsWith fp2 ".csv" = true) (h6 : rc fp2 = .error e2)
    (h7 : pyEndsWith fp3 ".csv" = false) (h8 : pyEndsWith fp3 ".xlsx" = true)
    (h9 : re fp3 = .error e3)
    (h10 : pyEndsWith fp4 ".csv" = false) (h11 : pyEndsWith fp4 ".xlsx" = false)
    (h12 : pyEndsWith fp4 ".xls" = true) (h13 : re fp4 = .error e4)
    (h14 : pyEndsWith fp5 ".csv" = false) (h15 : pyEndsWith fp5 ".xlsx" = false)
    (h16 : pyEndsWith fp5 ".xls" = false) (h17 : pyEndsWith fp5 ".json" = true)
    (h18 : rj fp5 = .error e5) :
    (DataProcessor_init rc re rj fp).1 =
      .error (.attributeError "NoneType object has no attribute shape")
    ∧ (DataProcessor_init rc re rj fp2).1 =
      .error (.attributeError "NoneType object has no attribute shape")
    ∧ (DataProcessor_init rc re rj fp3).1 =
      .error (.attributeError "NoneType object has no attribute shape")
    ∧ (DataProcessor_init rc re rj fp4).1 =
      .error (.attributeError "NoneType object has no attribute shape")
    ∧ (DataProcessor_init rc re rj fp5).1 =
      .error (.attributeError "NoneType object has no attribute shape") := by
  refine ⟨?_, ?_, ?_, ?_, ?_⟩
  · unfold DataProcessor_init load_file_handled load_file_body
    simp [h1, h2, h3, h4]
  · unfold DataProcessor_init load_file_handled load_file_body
    simp [h5, h6]
  · unfold DataProcessor_init load_file_handled load_file_body
    simp [h7, h8, h9]
  · unfold DataProcessor_init load_file_handled load_file_body
    simp [h10, h11, h12, h13]
  · unfold DataProcessor_init load_file_handled load_file_body
    simp [h14, h15, h16, h17, h18]

/-- **C2, witness.**  The amended claim at `"data.txt"` (unrecognized
extension) and at `"bad.csv"`, `"bad.xlsx"`, `"bad.xls"`, `"bad.json"`
(each dispatched to a failing decoder). -/
theorem C2_witness :
    (DataProcessor_init failReader failReader failReader "data.txt").1 =
      .error (.attributeError "NoneType object has no attribute shape")
    ∧ (DataProcessor_init failReader failReader failReader "bad.csv").1 =
      .error (.attributeError "NoneType object has no attribute shape")
    ∧ (DataProcessor_init failReader failReader failReader "bad.xlsx").1 =
      .error (.attributeError "NoneType object has no attribute shape")
    ∧ (DataProcessor_init failReader failReader failReader "bad.xls").1 =
      .error (.attributeError "NoneType object has no attribute shape")
    ∧ (DataProcessor_init failReader failReader failReader "bad.json").1 =
      .error (.attributeError "NoneType object has no attribute shape") :=
  C2_construction_fatal failReader failReader failReader
    "data.txt" "bad.csv" "bad.xlsx" "bad.xls" "bad.json"
    (.valueError "bad file") (.valueError "bad file")
    (.valueError "bad file") (.valueError "bad file")
    (by rfl) (by rfl) (by rfl) (by rfl)
    (by rfl) rfl
    (by rfl) (by rfl) rfl
    (by rfl) (by rfl) (by rfl) rfl
    (by rfl) (by rfl) (by rfl) (by rfl) rfl

/-- **C3, counterexample.**  Two post-construction operations whose failures
are *not* caught at the operation boundary: `clean` (decorated only with
`@timer` and `@log_operation`) raises `TypeError` from its tuple
subtraction, and `filter_data` (decorated only with `@timer`) raises
`TypeError` when ordering a numeric column against a string value.  Both
raised failures propagate to the caller, contradicting the claim that every
per-operation failure is converted to an absent result. -/
theorem C3_counterexample :
    (clean.run st5).1 =
      .error (.typeError "unsupported operand type(s) for -: tuple and tuple")
    ∧ ((filter_data "Sales" ">" (.str "500")).run scenSt).1 =
      .error (.typeError "unsupported comparison between mixed types") := by
  exact ⟨rfl, rfl⟩

/-- **C3, amended.**  Error containment holds exactly where `@handle_errors`
is applied (`_load_file` and `plot_graph`): for any wrapped operation that
fails, the failure is caught at the wrapper boundary, reported with the
wrapped operation's name — which `functools.wraps` preserves through
composition with the other decorators — and converted to a `None` result.
The remaining operations (`clean`, `analyze`, `filter_data`, `group_by`,
`save_report`) carry no such wrapper: only their explicitly checked invalid
inputs are reported and absent-valued, and any other failure — such as
`clean`'s tuple-subtraction `TypeError` — propagates to the caller as a
raised failure. -/
theorem C3_handle_errors_containment {α : Type} (f : POp α) (st st2 : PipelineState)
    (e : PyExc) (out : List String)
    (hf : f.run st = (.error e, st2, out)) :
    ((handle_errors f).run st).1 = .ok none
    ∧ ((handle_errors f).run st).2.2 = out ++ ["❌ Error in " ++ f.name ++ ": " ++ e.msg]
    ∧ (handle_errors (timer (log_operation f))).name = f.name
    ∧ exceptIsOk (clean.run st5).1 = false := by
  refine ⟨?_, ?_, rfl, rfl⟩
  · simp [handle_errors, hf]
  · simp [handle_errors, hf]

/-- **C3, witness.**  The amended claim applied to the (undecorated) body of
`clean` wrapped in `handle_errors`, at the 5-row scenario state. -/
theorem C3_witness :
    ((handle_errors ⟨"clean", clean_core⟩).run st5).1 = .ok none
    ∧ ((handle_errors ⟨"clean", clean_core⟩).run st5).2.2 =
        [] ++ ["❌ Error in " ++ "clean" ++ ": " ++
          (PyExc.typeError "unsupported operand type(s) for -: tuple and tuple").msg]
    ∧ (handle_errors (timer (log_operation ⟨"clean", clean_core⟩))).name = "clean"
    ∧ exceptIsOk (clean.run st5).1 = false :=
  C3_handle_errors_containment ⟨"clean", clean_core⟩ st5
    { st5 with data := cleanTable st5.data }
    (.typeError "unsupported operand type(s) for -: tuple and tuple") [] rfl

/-- **C4.**  A `filter_data` call with an absent column or an unsupported
operator, and a `group_by` call with an absent column or an unsupported
aggregation kind, each print a user-facing error line, return an absent
result (`filter_data` always returns `None`; `group_by` returns `None`
here), leave the pipeline state — in particular the current Table —
byte-identical, and raise nothing. -/
theorem C4_invalid_inputs_leave_table_unchanged (st : PipelineState)
    (c1 op1 : String) (v1 : Value) (c2 op2 : String) (v2 : Value)
    (g1 agg1 g2 agg2 : String)
    (h1 : c1 ∉ st.data.cols)
    (h2 : c2 ∈ st.data.cols) (h3 : opOfString op2 = none)
    (h4 : g1 ∉ st.data.cols)
    (h5 : g2 ∈ st.data.cols)
    (h6 : agg2 ∉ (["mean", "sum", "count", "min", "max"] : List String)) :
    (filter_data c1 op1 v1).run st =
      (.ok (), st, ["❌ Column " ++ c1 ++ " not found", "⏱️  filter_data took"])
    ∧ (filter_data c2 op2 v2).run st =
      (.ok (), st, ["❌ Invalid operator: " ++ op2, "⏱️  filter_data took"])
    ∧ (group_by g1 agg1).run st =
      (.ok none, st, ["❌ Column " ++ g1 ++ " not found", "⏱️  group_by took"])
    ∧ (group_by g2 agg2).run st =
      (.ok none, st, ["❌ Invalid aggregation: " ++ agg2, "⏱️  group_by took"]) := by
  simp only [List.mem_cons, List.mem_singleton, not_or] at h6
  obtain ⟨hm1, hm2, hm3, hm4, hm5⟩ := h6
  refine ⟨?_, ?_, ?_, ?_⟩
  · simp [filter_data, timer, filter_core, if_neg h1]
  · simp [filter_data, timer, filter_core, if_pos h2, h3]
  · simp [group_by, timer, group_core, if_neg h4]
  · simp [group_by, timer, group_core, if_pos h5, hm1, hm2, hm3, hm4, hm5]

/-- **C4, witness.**  The claim at the scenario Table: missing column
`NoSuchColumn`, unsupported operator `~`, unsupported aggregation
`median`. -/
theorem C4_witness :
    (filter_data "NoSuchColumn" ">" (.num 0)).run scenSt =
      (.ok (), scenSt, ["❌ Column " ++ "NoSuchColumn" ++ " not found", "⏱️  filter_data took"])
    ∧ (filter_data "Sales" "~" (.num 0)).run scenSt =
      (.ok (), scenSt, ["❌ Invalid operator: " ++ "~", "⏱️  filter_data took"])
    ∧ (group_by "NoSuchColumn" "mean").run scenSt =
      (.ok none, scenSt, ["❌ Column " ++ "NoSuchColumn" ++ " not found", "⏱️  group_by took"])
    ∧ (group_by "Region" "median").run scenSt =
      (.ok none, scenSt, ["❌ Invalid aggregation: " ++ "median", "⏱️  group_by took"]) :=
  C4_invalid_inputs_leave_table_unchanged scenSt "NoSuchColumn" ">" (.num 0)
    "Sales" "~" (.num 0) "NoSuchColumn" "mean" "Region" "median"
    (by decide) (by decide) (by decide) (by decide) (by decide) (by decide)

/-- **C5.**  A successful `filter_data` on an existing column with a
supported operator replaces the Table rows by a subsequence of the original
rows, in their original relative order (the `Sublist` relation expresses
exactly that), every surviving row satisfying the comparison predicate; and
a second successful `filter_data` narrows further: its survivors are a
subsequence of the original rows satisfying both predicates (conjunctive
composition). -/
theorem C5_filter_subsequence_conjunctive
    (st : PipelineState) (c o : String) (v : Value) (cop : CmpOp)
    (st1 : PipelineState) (out1 : List String)
    (c2 o2 : String) (v2 : Value) (cop2 : CmpOp)
    (st2 : PipelineState) (out2 : List String)
    (hc : c ∈ st.data.cols) (hop : opOfString o = some cop)
    (hrun1 : (filter_data c o v).run st = (.ok (), st1, out1))
    (hc2 : c2 ∈ st.data.cols) (hop2 : opOfString o2 = some cop2)
    (hrun2 : (filter_data c2 o2 v2).run st1 = (.ok (), st2, out2)) :
    st1.data.cols = st.data.cols
    ∧ st1.data.rows.Sublist st.data.rows
    ∧ (∀ r ∈ st1.data.rows, pyCmp cop (cellAt r (st.data.colIdx c)) v = .ok true)
    ∧ st2.data.rows.Sublist st.data.rows
    ∧ (∀ r ∈ st2.data.rows,
        pyCmp cop (cellAt r (st.data.colIdx c)) v = .ok true
        ∧ pyCmp cop2 (cellAt r (st.data.colIdx c2)) v2 = .ok true) := by
  rcases filter_data_ok c o v cop st st1 out1 hc hop hrun1 with ⟨kept1, hk1, hst1⟩
  rcases filterRowsE_ok _ _ _ _ _ hk1 with ⟨hsub1, hsat1⟩
  have hcols1 : st1.data.cols = st.data.cols := by rw [hst1]
  have hrows1 : st1.data.rows = kept1 := by rw [hst1]
  have hc2b : c2 ∈ st1.data.cols := by rw [hcols1]; exact hc2
  rcases filter_data_ok c2 o2 v2 cop2 st1 st2 out2 hc2b hop2 hrun2 with ⟨kept2, hk2, hst2⟩
  rcases filterRowsE_ok _ _ _ _ _ hk2 with ⟨hsub2, hsat2⟩
  have hidx : st1.data.colIdx c2 = st.data.colIdx c2 := by
    unfold Table.colIdx; rw [hcols1]
  have hrows2 : st2.data.rows = kept2 := by rw [hst2]
  refine ⟨hcols1, ?_, ?_, ?_, ?_⟩
  · rw [hrows1]; exact hsub1
  · intro r hr; rw [hrows1] at hr; exact hsat1 r hr
  · rw [hrows2]
    rw [hrows1] at hsub2
    exact hsub2.trans hsub1
  · intro r hr
    rw [hrows2] at hr
    have hmem1 : r ∈ kept1 := by
      have := hsub2.subset hr
      rwa [hrows1] at this
    refine ⟨hsat1 r hmem1, ?_⟩
    have := hsat2 r hr
    rwa [hidx] at this

/-- **C5, witness.**  The claim on the scenario Table: `Sales > 500` then
`Sales < 700`. -/
theorem C5_witness :
    (⟨"data.csv", ⟨["Region", "Sales"], [[.str "A", .num 600], [.str "B", .num 900]]⟩,
        (3, 2)⟩ : PipelineState).data.cols = scenSt.data.cols
    ∧ (⟨"data.csv", ⟨["Region", "Sales"], [[.str "A", .num 600], [.str "B", .num 900]]⟩,
        (3, 2)⟩ : PipelineState).data.rows.Sublist scenSt.data.rows
    ∧ (∀ r ∈ (⟨"data.csv", ⟨["Region", "Sales"],
          [[.str "A", .num 600], [.str "B", .num 900]]⟩, (3, 2)⟩ : PipelineState).data.rows,
        pyCmp .gt (cellAt r (scenSt.data.colIdx "Sales")) (.num 500) = .ok true)
    ∧ (⟨"data.csv", ⟨["Region", "Sales"], [[.str "A", .num 600]]⟩,
        (3, 2)⟩ : PipelineState).data.rows.Sublist scenSt.data.rows
    ∧ (∀ r ∈ (⟨"data.csv", ⟨["Region", "Sales"], [[.str "A", .num 600]]⟩,
          (3, 2)⟩ : PipelineState).data.rows,
        pyCmp .gt (cellAt r (scenSt.data.colIdx "Sales")) (.num 500) = .ok true
        ∧ pyCmp .lt (cellAt r (scenSt.data.colIdx "Sales")) (.num 700) = .ok true) :=
  C5_filter_subsequence_conjunctive scenSt "Sales" ">" (.num 500) .gt
    ⟨"data.csv", ⟨["Region", "Sales"], [[.str "A", .num 600], [.str "B", .num 900]]⟩, (3, 2)⟩
    ["🔍 Filter applied: 3 → 2 rows (kept 2 rows)", "⏱️  filter_data took"]
    "Sales" "<" (.num 700) .lt
    ⟨"data.csv", ⟨["Region", "Sales"], [[.str "A", .num 600]]⟩, (3, 2)⟩
    ["🔍 Filter applied: 2 → 1 rows (kept 1 rows)", "⏱️  filter_data took"]
    (by decide) rfl rfl (by decide) rfl rfl

/-- **C6.**  `clean` replaces the Table by `cleanTable` of it (this is the
in-place mutation of src/dataproc1.py lines 148–149, which happens even
though the removal-count line then raises — see C1): the result has no exact
duplicate rows (pairwise distinct) and no rows with missing values, at most
as many rows as before, in their original relative order (`Sublist`); and a
second `clean` leaves the Table unchanged (idempotence, zero rows
removed). -/
theorem C6_clean_idempotent_no_dups_no_missing (st : PipelineState) :
    ((clean.run st).2.1).data = cleanTable st.data
    ∧ (cleanTable st.data).rows.Pairwise (· ≠ ·)
    ∧ (∀ r ∈ (cleanTable st.data).rows, rowHasNA r = false)
    ∧ (cleanTable st.data).rows.length ≤ st.data.rows.length
    ∧ (cleanTable st.data).rows.Sublist st.data.rows
    ∧ cleanTable (cleanTable st.data) = cleanTable st.data
    ∧ ((clean.run ((clean.run st).2.1)).2.1).data = ((clean.run st).2.1).data := by
  have hstate : ∀ s : PipelineState,
      (clean.run s).2.1 = { s with data := cleanTable s.data } := by
    intro s
    simp only [clean]
    rw [timer_state, log_operation_state]
    rfl
  refine ⟨by rw [hstate], cleanTable_pairwise _, cleanTable_no_na _,
    cleanTable_length_le _, cleanTable_rows_sublist _, cleanTable_idem _, ?_⟩
  rw [hstate, hstate]
  simp [cleanTable_idem]

/-- **C7.**  For an existing group column, `group_by` with `mean`, `sum`,
`min` or `max` aggregates exactly the Table's numeric columns (the frame it
returns carries `numericCols` as its column list), while `count` returns the
per-group row count regardless of column types; and on the scenario Table,
`group_by(Region, mean)` gives `{A: 500, B: 900}`, `group_by(Region, count)`
gives `{A: 2, B: 1}`, and `filter(Sales, >, 500)` keeps exactly the rows
`[{A, 600}, {B, 900}]`. -/
theorem C7_groupby_numeric_only_and_scenario (st : PipelineState) (c agg : String)
    (hc : c ∈ st.data.cols)
    (hagg : agg ∈ (["mean", "sum", "min", "max"] : List String)) :
    (∃ groups, ((group_by c agg).run st).1 =
        .ok (some (.frame st.data.numericCols groups)))
    ∧ ((group_by c "count").run st).1 =
        .ok (some (.series (groupSizes st.data (st.data.colIdx c))))
    ∧ ((group_by "Region" "mean").run scenSt).1 =
        .ok (some (.frame ["Sales"] [(.str "A", [.num 500]), (.str "B", [.num 900])]))
    ∧ ((group_by "Region" "count").run scenSt).1 =
        .ok (some (.series [(.str "A", 2), (.str "B", 1)]))
    ∧ ((filter_data "Sales" ">" (.num 500)).run scenSt).2.1.data.rows =
        [[.str "A", .num 600], [.str "B", .num 900]] := by
  have hfst : ∀ a : String, ((group_by c a).run st).1 = (group_core c a st).1 := by
    intro a; simp only [group_by]; rw [timer_fst]
  refine ⟨?_, ?_, rfl, rfl, by decide⟩
  · rw [hfst]
    unfold group_core
    rw [if_pos hc]
    simp only [List.mem_cons, List.not_mem_nil, or_false] at hagg
    rcases hagg with rfl | rfl | rfl | rfl
    · exact ⟨_, rfl⟩
    · exact ⟨_, rfl⟩
    · exact ⟨_, rfl⟩
    · exact ⟨_, rfl⟩
  · rw [hfst]
    unfold group_core
    rw [if_pos hc]
    rfl

/-- **C7, witness.**  The general part of C7 applied at the scenario Table
with group column `Region` and aggregation `mean`. -/
theorem C7_witness :
    (∃ groups, ((group_by "Region" "mean").run scenSt).1 =
        .ok (some (.frame scenSt.data.numericCols groups)))
    ∧ ((group_by "Region" "count").run scenSt).1 =
        .ok (some (.series (groupSizes scenSt.data (scenSt.data.colIdx "Region"))))
    ∧ ((group_by "Region" "mean").run scenSt).1 =
        .ok (some (.frame ["Sales"] [(.str "A", [.num 500]), (.str "B", [.num 900])]))
    ∧ ((group_by "Region" "count").run scenSt).1 =
        .ok (some (.series [(.str "A", 2), (.str "B", 1)]))
    ∧ ((filter_data "Sales" ">" (.num 500)).run scenSt).2.1.data.rows =
        [[.str "A", .num 600], [.str "B", .num 900]] :=
  C7_groupby_numeric_only_and_scenario scenSt "Region" "mean" (by decide) (by decide)

/-- **C8.**  `analyze` and `group_by` leave the pipeline state — in
particular the current Table — unchanged, and no operation ever touches the
original shape recorded at load time: `clean` and `filter_data` replace only
the Table, and `save_report` passes the state through untouched. -/
theorem C8_analyze_groupby_read_only (st : PipelineState) (c agg co op : String)
    (v : Value) (r : Report) (path : String) (fs : FS) :
    (analyze.run st).2.1 = st
    ∧ ((group_by c agg).run st).2.1 = st
    ∧ ((clean.run st).2.1).original_shape = st.original_shape
    ∧ ((clean.run st).2.1).filepath = st.filepath
    ∧ ((filter_data co op v).run st).2.1.original_shape = st.original_shape
    ∧ ((filter_data co op v).run st).2.1.filepath = st.filepath
    ∧ (save_report r path st fs).1 = st := by
  have hgroup : ((group_by c agg).run st).2.1 = st := by
    simp only [group_by]
    rw [timer_state]
    show (group_core c agg st).2.1 = st
    unfold group_core
    by_cases h : c ∈ st.data.cols
    · rw [if_pos h]
      split <;> rfl
    · rw [if_neg h]
  have hclean : (clean.run st).2.1 = { st with data := cleanTable st.data } := by
    simp only [clean]
    rw [timer_state, log_operation_state]
    rfl
  have hfc : ∃ d, (filter_core co op v st).2.1 = { st with data := d } := by
    unfold filter_core
    by_cases h : co ∈ st.data.cols
    · rw [if_pos h]
      split
      · exact ⟨st.data, rfl⟩
      · split
        · exact ⟨st.data, rfl⟩
        · exact ⟨_, rfl⟩
    · rw [if_neg h]
      exact ⟨st.data, rfl⟩
  obtain ⟨d, hd⟩ := hfc
  have hfrun : ((filter_data co op v).run st).2.1 = { st with data := d } := by
    simp only [filter_data]
    rw [timer_state]
    exact hd
  refine ⟨?_, hgroup, by rw [hclean], by rw [hclean], by rw [hfrun], by rw [hfrun], ?_⟩
  · simp only [analyze]
    rw [timer_state, log_operation_state]
    rfl
  · unfold save_report
    split
    · rfl
    · split <;> rfl

/-- **C9.**  Saving a report to a `.json` path writes a file whose re-read
JSON document recovers `columns`, `original_shape` and `current_shape`
exactly; serialization is total and a non-JSON-native value is written as
its string representation (`default=str`), so saving never raises; and a
path with any extension other than `.json`/`.csv` only prints the
unsupported-format message: the file system is left untouched and no file is
created at that path. -/
theorem C9_save_report_roundtrip (r : Report) (st : PipelineState) (fs : FS)
    (pj px s : String)
    (hpj : pyEndsWith pj ".json" = true)
    (hx1 : pyEndsWith px ".json" = false) (hx2 : pyEndsWith px ".csv" = false) :
    fsRead (save_report r pj st fs).2.1 pj = some (.json (jsonOfReport r))
    ∧ (jsonOfReport r).get "columns" = some (.jarr (r.columns.map .jstr))
    ∧ (jsonOfReport r).get "original_shape" = some (jsonOfShape r.original_shape)
    ∧ (jsonOfReport r).get "current_shape" = some (jsonOfShape r.current_shape)
    ∧ jsonOfValue (.pyobj s) = .jstr s
    ∧ (save_report r px st fs).2.1 = fs
    ∧ (save_report r px st fs).2.2 = ["❌ Unsupported output format. Use .json or .csv"]
    ∧ fsRead (save_report r px st fs).2.1 px = fsRead fs px := by
  refine ⟨?_, rfl, rfl, rfl, rfl, ?_, ?_, ?_⟩
  · simp [save_report, hpj, fsRead, List.lookup]
  · simp [save_report, hx1, hx2]
  · simp [save_report, hx1, hx2]
  · simp [save_report, hx1, hx2]

/-- **C9, witness.**  The claim at the report of the scenario Table, saved
to `report.json` and to `report.txt` on an empty file system. -/
theorem C9_witness :
    fsRead (save_report (mkReport scenSt) "report.json" scenSt []).2.1 "report.json" =
      some (.json (jsonOfReport (mkReport scenSt)))
    ∧ (jsonOfReport (mkReport scenSt)).get "columns" =
      some (.jarr ((mkReport scenSt).columns.map .jstr))
    ∧ (jsonOfReport (mkReport scenSt)).get "original_shape" =
      some (jsonOfShape (mkReport scenSt).original_shape)
    ∧ (jsonOfReport (mkReport scenSt)).get "current_shape" =
      some (jsonOfShape (mkReport scenSt).current_shape)
    ∧ jsonOfValue (.pyobj "2024-01-01 00:00:00") = .jstr "2024-01-01 00:00:00"
    ∧ (save_report (mkReport scenSt) "report.txt" scenSt []).2.1 = []
    ∧ (save_report (mkReport scenSt) "report.txt" scenSt []).2.2 =
      ["❌ Unsupported output format. Use .json or .csv"]
    ∧ fsRead (save_report (mkReport scenSt) "report.txt" scenSt []).2.1 "report.txt" =
      fsRead [] "report.txt" :=
  C9_save_report_roundtrip (mkReport scenSt) scenSt [] "report.json" "report.txt"
    "2024-01-01 00:00:00" (by decide) (by decide) (by decide)

/-- **C10.**  The CLI `--filter` branch converts the comparison value string
to a number exactly when Python `float` accepts it, and passes the raw
string otherwise; so a numeric-looking value is compared numerically — on
the scenario Table, `--filter Sales > 500` keeps the two rows with
`Sales > 500` numerically, whereas passing the same value as the *string*
`"500"` would raise a `TypeError` rather than compare — and a non-numeric
value is compared as a string. -/
theorem C10_cli_value_conversion (s t col op val : String) (q : Rat)
    (hq : pyFloatParse s = some (.finite q))
    (ht : pyFloatParse t = none) :
    cliFilterValue s = .num q
    ∧ cliFilterValue t = .str t
    ∧ cliFilter col op val = filter_data col op (cliFilterValue val)
    ∧ cliFilterValue "500" = .num 500
    ∧ cliFilterValue "abc" = .str "abc"
    ∧ ((cliFilter "Sales" ">" "500").run scenSt).2.1.data.rows =
        [[.str "A", .num 600], [.str "B", .num 900]]
    ∧ exceptIsOk ((filter_data "Sales" ">" (.str "500")).run scenSt).1 = false := by
  refine ⟨?_, ?_, rfl, by decide, by decide, by decide, rfl⟩
  · unfold cliFilterValue
    rw [hq]
  · unfold cliFilterValue
    rw [ht]

/-- **C10, witness.**  The claim at the numeric-looking value `" 1e3 "`
(parsed as `1000`) and the non-numeric value `"abc"`. -/
theorem C10_witness :
    cliFilterValue " 1e3 " = .num 1000
    ∧ cliFilterValue "abc" = .str "abc"
    ∧ cliFilter "Sales" ">" "500" = filter_data "Sales" ">" (cliFilterValue "500")
    ∧ cliFilterValue "500" = .num 500
    ∧ cliFilterValue "abc" = .str "abc"
    ∧ ((cliFilter "Sales" ">" "500").run scenSt).2.1.data.rows =
        [[.str "A", .num 600], [.str "B", .num 900]]
    ∧ exceptIsOk ((filter_data "Sales" ">" (.str "500")).run scenSt).1 = false :=
  C10_cli_value_conversion " 1e3 " "abc" "Sales" ">" "500" 1000 (by decide) (by decide)

end DataProc
